import Mathlib

/-!
Shallow embedding of the email-handling module `framework/sendemail.py` and the
star-toggle handler `api/stars_api.py` of the chromium-dashboard backend, with
theorems checking the natural-language specification against the code.

Conventions of the embedding:
* Python strings are `String`; JSON parameter values are the inductive `JVal`.
* The process-wide configuration module `settings` is the structure `Settings`.
  A Python format string using percent-substitution with the keys `user` and
  `domain` is embedded as a `Template`, a list of literal/placeholder pieces;
  a falsy `settings.SEND_ALL_EMAIL_TO` is `none`.
* `flask.abort` and Python exceptions are modelled with `Except` / `Option`.
* Calls into the standard library (`email.utils.getaddresses`,
  `urllib.parse.unquote`) and into external collaborators are parameters of the
  embedded handlers, so theorems quantify over their behaviour.
-/

/-- A piece of a recipient-address format string: literal text, or the
percent-substituted `user` or `domain` key. -/
inductive TmplPiece where
  | lit (s : String)
  | user
  | domain
deriving DecidableEq, Repr

/-- A format string for recipient addresses, e.g.
`SEND_ALL_EMAIL_TO` or `CC_ALL_EMAIL_TO` from `settings`. -/
def Template := List TmplPiece
deriving DecidableEq, Repr

/-- Percent-substitution of `user` and `domain` into a format string:
`tmpl % dict(user=u, domain=d)`. -/
def renderTemplate : Template → String → String → String
  | [], _, _ => ""
  | .lit s :: rest, u, d => s ++ renderTemplate rest u d
  | .user :: rest, u, d => u ++ renderTemplate rest u d
  | .domain :: rest, u, d => d ++ renderTemplate rest u d

/-- The `settings` module constants read by `sendemail.py`.
`SEND_ALL_EMAIL_TO = none` embeds a falsy value (staging redirection off).
`REVIEW_COMMENT_MAILING_LIST` is modelled from the spec: `settings.py` is not
part of the sources, and the spec's `StagingRedirectConfig` declares the
exemption as `excluded_recipient_list : list of address`, so it is a list of
addresses here, compared against the normalized recipient list. -/
structure Settings where
  SEND_ALL_EMAIL_TO : Option Template
  CC_ALL_EMAIL_TO : Template
  REVIEW_COMMENT_MAILING_LIST : List String
  APP_ID : String
  SEND_EMAIL : Bool
  INBOUND_EMAIL_ADDR : String
  BOUNCE_ESCALATION_ADDR : String

/-- Python `s.split(c)` for a one-character separator: splits at every
occurrence of `c`; the empty string yields a single empty field. -/
def splitOnChar (c : Char) : List Char → List (List Char)
  | [] => [[]]
  | x :: xs =>
    match splitOnChar c xs, decide (x = c) with
    | rest, true => [] :: rest
    | r :: rs, false => (x :: r) :: rs
    | [], false => [[x]]

/-- `addr.split` at the at-sign, destructured into exactly two names:
`to_user, to_domain = addr.split(...)`. Returns `none` when the address does
not contain exactly one at-sign (Python raises `ValueError` there). -/
def splitEmail (addr : String) : Option (String × String) :=
  match splitOnChar '@' addr.toList with
  | [u, d] => some (⟨u⟩, ⟨d⟩)
  | _ => none

/-- `format_staging_email` from `framework/sendemail.py`: returns the empty
string when `settings.SEND_ALL_EMAIL_TO` is falsy, otherwise splits the address
at the at-sign and substitutes user and domain into the template.
`none` embeds the `ValueError` of a malformed split. -/
def format_staging_email (st : Settings) (addr : String) : Option String :=
  match st.SEND_ALL_EMAIL_TO with
  | none => some ""
  | some tmpl => (splitEmail addr).map fun p => renderTemplate tmpl p.1 p.2

/-- A JSON parameter value as it reaches the outbound-mail task handler:
a string, a list of strings, or absent (`json_body.get` returned `None`). -/
inductive JVal where
  | s (v : String)
  | l (vs : List String)
  | null
deriving DecidableEq, Repr

/-- Python truthiness of a parameter value: `None`, the empty string and the
empty list are falsy. -/
def JVal.falsy : JVal → Bool
  | .s v => v == ""
  | .l vs => vs.isEmpty
  | .null => true

/-- Normalization of a `to`/`cc` parameter to list form:
`if isinstance(x, str): x = [x]`; an absent value behaves like the empty list
in all later uses (it is only iterated or truthiness-tested). -/
def JVal.asList : JVal → List String
  | .s v => [v]
  | .l vs => vs
  | .null => []

/-- The JSON body of an outbound-mail task request: `json_body.get(name)`. -/
structure MailRequest where
  params : String → JVal

/-- How the outbound-mail handler can fail: `flask.abort(400, 'Missing
parameter name')` from `get_param`, the `ValueError` of splitting an address
without exactly one at-sign, or `check_initialized` rejecting the message. -/
inductive MailErr where
  | abort400 (missingParam : String)
  | valueError
  | notInitialized
deriving DecidableEq, Repr

/-- `get_param` from `framework/sendemail.py`: reads the named JSON parameter;
when it is required and falsy, aborts with HTTP 400 naming the parameter. -/
def get_param (req : MailRequest) (name : String) (required : Bool) :
    Except MailErr JVal :=
  let val := req.params name
  if required && val.falsy then .error (.abort400 name)
  else .ok val

/-- The transport-ready email message built by `handle_outbound_mail_task`
(the fields of `mail.EmailMessage` it sets). `headers` holds the extra
threading headers, in the order the source dict writes them. -/
structure EmailMessage where
  sender : String
  «to» : List String
  subject : JVal
  html : JVal
  reply_to : Option JVal
  cc : List String
  headers : List (String × JVal)
deriving DecidableEq, Repr

/-- Sender identity: `Chromestatus admin at APP_ID` by default; with a truthy
`from_user`, `from_user via Chromestatus admin+from_user at APP_ID`. -/
def buildSender (st : Settings) (from_user : JVal) : String :=
  if from_user.falsy then
    "Chromestatus <admin@" ++ st.APP_ID ++ ".appspotmail.com>"
  else
    match from_user with
    | .s v => v ++ " via Chromestatus <admin+" ++ v ++ "@" ++ st.APP_ID ++
        ".appspotmail.com>"
    | _ => ""

/-- The staging-redirection block of `handle_outbound_mail_task`: when
`settings.SEND_ALL_EMAIL_TO` is truthy and the normalized `to` list differs
from the exempt mailing list, every `to` address is rewritten with
`format_staging_email` and every `cc` address with `CC_ALL_EMAIL_TO`. -/
def applyStaging (st : Settings) («to» cc : List String) :
    Except MailErr (List String × List String) :=
  match st.SEND_ALL_EMAIL_TO with
  | none => .ok («to», cc)
  | some _ =>
    if «to» = st.REVIEW_COMMENT_MAILING_LIST then .ok («to», cc)
    else
      match «to».mapM (fun addr => format_staging_email st addr) with
      | none => .error .valueError
      | some to2 =>
        match cc.mapM (fun addr =>
            (splitEmail addr).map fun p =>
              renderTemplate st.CC_ALL_EMAIL_TO p.1 p.2) with
        | none => .error .valueError
        | some cc2 => .ok (to2, cc2)

/-- `handle_outbound_mail_task` from `framework/sendemail.py`, after the
task-header check: reads the parameters in source order, normalizes `to`/`cc`
to lists, applies staging redirection, builds the message (sender, recipients,
subject, html, optional reply-to and threading headers) and checks it is
initialized. Returns the built message and whether `settings.SEND_EMAIL`
makes it call `message.send()`. -/
def handle_outbound_mail_task (st : Settings) (req : MailRequest) :
    Except MailErr (EmailMessage × Bool) := do
  let toV ← get_param req "to" true
  let ccV ← get_param req "cc" false
  let from_user ← get_param req "from_user" false
  let subjectV ← get_param req "subject" true
  let htmlV ← get_param req "html" true
  let references ← get_param req "references" false
  let reply_to ← get_param req "reply_to" false
  let «to» := toV.asList
  let cc := ccV.asList
  match applyStaging st «to» cc with
  | .error e => .error e
  | .ok («to», cc) =>
    let message : EmailMessage :=
      { sender := buildSender st from_user
        «to» := «to»
        subject := subjectV
        html := htmlV
        reply_to := if reply_to.falsy then none else some reply_to
        cc := cc
        headers :=
          if references.falsy then []
          else [("References", references), ("In-Reply-To", references)] }
    if message.«to» = [] ∨ message.subject.falsy ∨ message.html.falsy then
      .error .notInitialized
    else
      .ok (message, st.SEND_EMAIL)

/-- Size ceiling for inbound messages: parsing very large messages could cause
out-of-memory errors. `MAX_BODY_SIZE = 20 * 1024 * 1024`. -/
def MAX_BODY_SIZE : Nat := 20 * 1024 * 1024

/-- A parsed MIME body part: a leaf with a content type and (already decoded)
payload text, or a multipart container with a content type and sub-parts. -/
inductive MimeTree where
  | leaf (ct : String) (payload : String)
  | multi (ct : String) (children : List MimeTree)

mutual

/-- `msg.walk()`: the part itself, then (for multipart) every sub-part,
depth-first in document order. A multipart container has no decodable payload
(`get_payload(decode=True)` returns `None`), hence the `Option`. -/
def MimeTree.walk : MimeTree → List (String × Option String)
  | .leaf ct payload => [(ct, some payload)]
  | .multi ct children => (ct, none) :: walkForest children

/-- The concatenated walks of a list of sibling MIME parts. -/
def walkForest : List MimeTree → List (String × Option String)
  | [] => []
  | t :: ts => t.walk ++ walkForest ts

end

/-- A parsed inbound email message: its headers, as (name, value) pairs in
arrival order, and its MIME body structure. -/
structure ParsedMsg where
  headers : List (String × String)
  tree : MimeTree

/-- Python `s.lower()` (ASCII case folding), character by character. -/
def pyLower (s : String) : String :=
  ⟨s.toList.map Char.toLower⟩

/-- `msg.get(name, default)`: the value of the first header whose name matches
case-insensitively, or the default. -/
def getHeader (m : ParsedMsg) (name default : String) : String :=
  match m.headers.find? (fun p => pyLower p.1 == pyLower name) with
  | some p => p.2
  | none => default

/-- `msg.get_all(name, [])`: the values of every header whose name matches
case-insensitively, in order. -/
def get_all (m : ParsedMsg) (name : String) : List String :=
  (m.headers.filter (fun p => pyLower p.1 == pyLower name)).map (fun p => p.2)

/-- Standard-library collaborators of the inbound handler:
`email.utils.getaddresses` (header values to (friendly, addr) pairs) and
`urllib.parse.unquote` (URL percent-decoding). The handler is parametric in
them, so theorems hold for every behaviour of these externals. -/
structure MailDeps where
  getaddresses : List String → List (String × String)
  unquote : String → String

/-- `_extract_addrs` from `framework/sendemail.py`: the address component of
every (friendly, addr) pair `getaddresses` finds in the header values. -/
def _extract_addrs (deps : MailDeps) (header_value : List String) :
    List String :=
  (deps.getaddresses header_value).map (fun p => p.2)

/-- The body-extraction loop of `handle_incoming_mail`: the decoded payload of
the first part of the walk whose content type is `text/plain`, or the empty
string when there is none. `none` embeds the crash of decoding a multipart
container (`None` has no decode method). -/
def extractBody (m : ParsedMsg) : Option String :=
  match m.tree.walk.find? (fun p => p.1 == "text/plain") with
  | none => some ""
  | some (_, some payload) => some payload
  | some (_, none) => none

/-- The payload of the task enqueued for `/tasks/detect-intent`. -/
structure InboundReplyTask where
  to_addr : String
  from_addr : String
  subject : String
  in_reply_to : String
  body : String
deriving DecidableEq, Repr

/-- `handle_incoming_mail` from `framework/sendemail.py`: checks the
destination address, the content length, the `Precedence` header and the
originating address, extracts the plain-text body, and enqueues one
detect-intent task. Result: the response message and the list of enqueued
tasks; `none` embeds a crash while decoding the body. -/
def handle_incoming_mail (st : Settings) (deps : MailDeps) (addr : String)
    (content_length : Nat) (m : ParsedMsg) :
    Option (String × List InboundReplyTask) :=
  if addr ≠ st.INBOUND_EMAIL_ADDR then some ("Wrong address", [])
  else if content_length > MAX_BODY_SIZE then some ("Too big", [])
  else
    let precedence := getHeader m "precedence" ""
    if pyLower precedence = "bulk" ∨ pyLower precedence = "junk" then
      some ("Wrong precedence", [])
    else
      let from_addrs :=
        match _extract_addrs deps (get_all m "x-original-from") with
        | [] => _extract_addrs deps (get_all m "from")
        | xs => xs
      match from_addrs with
      | [] => some ("Missing From", [])
      | from_addr :: _ =>
        let in_reply_to := getHeader m "in-reply-to" ""
        match extractBody m with
        | none => none
        | some body =>
          some ("Done",
            [{ to_addr := deps.unquote addr
               from_addr := from_addr
               subject := getHeader m "subject" ""
               in_reply_to := in_reply_to
               body := body }])

/-- The headers of the original message embedded in a transport bounce
notification (`bounce_message.original`): From, To, Subject and body text. -/
structure BounceOriginal where
  from_ : String
  «to» : String
  subject : String
  text : String
deriving DecidableEq, Repr

/-- A persisted user mail-preference record (`internals.user_models.UserPref`):
the email key and the bounced flag. -/
structure UserPref where
  email : String
  bounced : Bool
deriving DecidableEq, Repr

/-- Modelled from the spec: `UserPref.get_prefs_for_emails` lives in
`internals/user_models.py`, which is not among the sources; the spec says the
bounce ingestor looks up or lazily creates the preference record for the
address. For each email: the stored record if one exists, otherwise a fresh
record with `bounced = false`. -/
def get_prefs_for_emails (store : List UserPref) (emails : List String) :
    List UserPref :=
  emails.map fun e =>
    match store.find? (fun p => p.email == e) with
    | some p => p
    | none => { email := e, bounced := false }

/-- `user_pref.put()`: persist the record in the store under its email key,
replacing the existing record or appending a new one. -/
def putPref : List UserPref → UserPref → List UserPref
  | [], p => [p]
  | q :: qs, p => if q.email == p.email then p :: qs else q :: putPref qs p

/-- The escalation email `receive` builds: sender, operator address, subject
and body. -/
structure EscalationMsg where
  sender : String
  «to» : String
  subject : String
  body : String
deriving DecidableEq, Repr

/-- The outcome of `receive`: the updated preference store, the escalation
message, and whether `message.send()` succeeded: `.ok` when the transport
accepted it or `settings.SEND_EMAIL` is off, `.error` when the call raised. -/
structure BounceResult where
  store : List UserPref
  escalation : EscalationMsg
  sendResult : Except Unit Unit

/-- `receive` from `framework/sendemail.py`: takes the original `to` address
of the bounce, marks its preference record bounced and persists it, then
composes the escalation email and sends it if `settings.SEND_EMAIL`.
`transportOk` says whether the transport accepts the escalation send; the
store update is made before the send is attempted, so a raising send leaves
the store updated. `none` embeds the unguarded index error on an empty
preference list. `\x27` is the quote that Python percent-r formatting puts
around the address. -/
def receive (st : Settings) (store : List UserPref) (b : BounceOriginal)
    (transportOk : Bool) : Option BounceResult :=
  let email_addr := b.to
  let subject := "Mail to \x27" ++ email_addr ++ "\x27 bounced"
  let pref_list := get_prefs_for_emails store [email_addr]
  match pref_list with
  | [] => none
  | user_pref :: _ =>
    let user_pref := { user_pref with bounced := true }
    let store := putPref store user_pref
    let body := "The following message bounced.\n=================\nFrom: " ++
      b.from_ ++ "\nTo: " ++ b.to ++ "\nSubject: " ++ b.subject ++ "\n\n" ++
      b.text ++ "\n"
    some { store := store
           escalation :=
             { sender := "Chromestatus <admin@" ++ st.APP_ID ++
                 ".appspotmail.com>"
               «to» := st.BOUNCE_ESCALATION_ADDR
               subject := subject
               body := body }
           sendResult :=
             if st.SEND_EMAIL then
               if transportOk then .ok () else .error ()
             else .ok () }

/-- A JSON value as the star-toggle handler sees it (`json_body.get`):
`type(x) != int` distinguishes genuine integers from everything else,
including booleans and absence. -/
inductive PyVal where
  | int (n : Int)
  | str (s : String)
  | bool (b : Bool)
  | nil
deriving DecidableEq, Repr

/-- The JSON body of a star-toggle POST: `featureId` as found by
`json_body.get('featureId')` (`nil` when absent) and `starred` as an optional
boolean (`none` when absent, defaulted to true by the handler). -/
structure StarsRequest where
  featureId : PyVal
  starred : Option Bool
deriving DecidableEq, Repr

/-- The arguments of the `FeatureStar.set_star` call the handler makes. -/
structure SetStarCall where
  email : String
  feature_id : Int
  starred : Bool
deriving DecidableEq, Repr

/-- `StarsAPI.do_post` from `api/stars_api.py`: defaults `starred` to true,
aborts 400 unless `featureId` is exactly an int, aborts 404 when the feature
does not exist, aborts 400 when no user is signed in, then stars/unstars and
returns the Done message. `getFeature` embeds `models.Feature.get_feature`
(does a feature with that id exist); `user` is the signed-in user's email. -/
def StarsAPI.do_post (getFeature : Int → Bool) (user : Option String)
    (req : StarsRequest) : Except Nat (SetStarCall × String) :=
  let starred := req.starred.getD true
  match req.featureId with
  | .int feature_id =>
    if getFeature feature_id then
      match user with
      | some email =>
        .ok ({ email := email, feature_id := feature_id, starred := starred },
          "Done")
      | none => .error 400
    else .error 404
  | _ => .error 400

mutual

/-- The payloads of the `text/plain` leaf parts of a MIME tree, in document
order. A characterization of the handler's body extraction that is independent
of `walk`: the first element of this list (or the empty string) is what the
extraction loop produces. -/
def MimeTree.plainLeaves : MimeTree → List String
  | .leaf ct payload => if ct == "text/plain" then [payload] else []
  | .multi _ children => plainLeavesForest children

/-- The concatenated `plainLeaves` of a list of sibling MIME parts. -/
def plainLeavesForest : List MimeTree → List String
  | [] => []
  | t :: ts => t.plainLeaves ++ plainLeavesForest ts

end

/-! Concrete fixtures used by the witness theorems. -/

/-- A staging redirection template: user, then `+staging@`, then domain. -/
def stagingTemplate : Template := [.user, .lit "+staging@", .domain]

/-- A cc redirection template: `cc+`, user, `@`, domain. -/
def ccTemplate : Template := [.lit "cc+", .user, .lit "@", .domain]

/-- A concrete `settings` valuation with staging redirection enabled. -/
def testSettings : Settings :=
  { SEND_ALL_EMAIL_TO := some stagingTemplate
    CC_ALL_EMAIL_TO := ccTemplate
    REVIEW_COMMENT_MAILING_LIST := ["blink-dev@chromium.org"]
    APP_ID := "cr-status"
    SEND_EMAIL := true
    INBOUND_EMAIL_ADDR := "filter@chromestatus.com"
    BOUNCE_ESCALATION_ADDR := "ops@example.com" }

/-- `testSettings` with staging redirection disabled
(falsy `SEND_ALL_EMAIL_TO`). -/
def disabledSettings : Settings :=
  { testSettings with SEND_ALL_EMAIL_TO := none }

/-- A complete outbound-mail task request, with two recipients, one cc and
threading references. -/
def fullRequest : MailRequest :=
  { params := fun name =>
      if name = "to" then .l ["a@b.com", "c@d.org"]
      else if name = "cc" then .l ["e@f.net"]
      else if name = "subject" then .s "subj"
      else if name = "html" then .s "body"
      else if name = "references" then .s "<msg1@id>"
      else .null }

/-- An outbound-mail task request whose `to` parameter is absent. -/
def reqMissingTo : MailRequest :=
  { params := fun name =>
      if name = "subject" then .s "subj"
      else if name = "html" then .s "body"
      else .null }

/-- The message `handle_outbound_mail_task` builds from `fullRequest` under
`testSettings`. -/
def builtMessage : EmailMessage :=
  { sender := "Chromestatus <admin@cr-status.appspotmail.com>"
    «to» := ["a+staging@b.com", "c+staging@d.org"]
    subject := .s "subj"
    html := .s "body"
    reply_to := none
    cc := ["cc+e@f.net"]
    headers := [("References", .s "<msg1@id>"), ("In-Reply-To", .s "<msg1@id>")] }

/-- Standard-library collaborators for witnesses: every header value is taken
verbatim as one address, and URL decoding is the identity. -/
def testDeps : MailDeps :=
  { getaddresses := fun hv => hv.map (fun v => ("", v))
    unquote := fun s => s }

/-- Collaborators whose address parser finds nothing anywhere. -/
def noAddrDeps : MailDeps :=
  { getaddresses := fun _ => []
    unquote := fun s => s }

/-- A small inbound message: a From header and a multipart body whose first
`text/plain` part says Hello, followed by a non-text part. -/
def sampleMsg : ParsedMsg :=
  { headers := [("From", "x@y.com"), ("Subject", "Hi")]
    tree := .multi "multipart/mixed"
      [.leaf "text/html" "<p>Hello</p>",
       .leaf "text/plain" "Hello",
       .leaf "application/pdf" "binary"] }

/-- An inbound message carrying both X-Original-From and From headers, with a
bulk-precedence variant used via header override in witnesses. -/
def origFromMsg : ParsedMsg :=
  { headers := [("X-Original-From", "orig@x.com"), ("From", "fwd@y.com"),
                ("Subject", "Hi"), ("In-Reply-To", "<t@id>")]
    tree := .leaf "text/plain" "Hello" }

/-- An inbound message whose Precedence header marks it as bulk. -/
def bulkMsg : ParsedMsg :=
  { headers := [("Precedence", "Bulk"), ("From", "x@y.com")]
    tree := .leaf "text/plain" "Hello" }

/-- A bounce notification original for a concrete user. -/
def sampleBounce : BounceOriginal :=
  { from_ := "admin@cr-status.appspotmail.com"
    «to» := "user@x.com"
    subject := "Weekly digest"
    text := "delivery failed" }

/-- The detect-intent task `handle_incoming_mail` enqueues for `sampleMsg`
under `testSettings` and `testDeps`. -/
def helloTask : InboundReplyTask :=
  { to_addr := "filter@chromestatus.com"
    from_addr := "x@y.com"
    subject := "Hi"
    in_reply_to := ""
    body := "Hello" }

/-- The outcome of `receive` on `sampleBounce` with one matching stored
preference and a failing escalation transport. -/
def bounceRes : BounceResult :=
  { store := [{ email := "user@x.com", bounced := true }]
    escalation :=
      { sender := "Chromestatus <admin@cr-status.appspotmail.com>"
        «to» := "ops@example.com"
        subject := "Mail to \x27user@x.com\x27 bounced"
        body := "The following message bounced.\n=================\nFrom: admin@cr-status.appspotmail.com\nTo: user@x.com\nSubject: Weekly digest\n\ndelivery failed\n" }
    sendResult := .error () }

/-! Theorems settling the claims. -/

/-- Claim C1, counterexample: with staging redirection disabled,
`format_staging_email` does not return the address unchanged — it returns the
empty string. -/
theorem format_staging_email_disabled_counterexample :
    format_staging_email disabledSettings "user@domain" ≠ some "user@domain" := by
  decide

/-- Claim C1, amended: for every address of the form user at domain,
`format_staging_email` returns the empty string when staging redirection is
disabled; when redirection is enabled it returns the configured template with
user and domain substituted from the split address. -/
theorem format_staging_email_amended (st : Settings) (addr : String)
    (tmpl : Template) (u d : String) :
    (st.SEND_ALL_EMAIL_TO = none → format_staging_email st addr = some "") ∧
    (st.SEND_ALL_EMAIL_TO = some tmpl → splitEmail addr = some (u, d) →
      format_staging_email st addr = some (renderTemplate tmpl u d)) := by
  constructor
  · intro h
    simp [format_staging_email, h]
  · intro h hs
    simp [format_staging_email, h, hs]

/-- Witness for C1's amended theorem at concrete inputs: disabled yields the
empty string; the staging template sends a at b to a+staging@b. -/
theorem format_staging_email_amended_witness :
    format_staging_email disabledSettings "user@domain" = some "" ∧
    format_staging_email testSettings "a@b" = some "a+staging@b" :=
  ⟨(format_staging_email_amended disabledSettings "user@domain"
      stagingTemplate "" "").1 rfl,
   (format_staging_email_amended testSettings "a@b"
      stagingTemplate "a" "b").2 rfl (by decide)⟩

/-- Claim C3: an outbound mail task whose `to` parameter is falsy (absent,
empty string or empty list) aborts with HTTP 400 naming `to`; the handler
produces no message and no transport send. -/
theorem outbound_missing_to_aborts (st : Settings) (req : MailRequest)
    (h : (req.params "to").falsy = true) :
    handle_outbound_mail_task st req = .error (.abort400 "to") := by
  unfold handle_outbound_mail_task
  simp [get_param, h, bind, Except.bind]

/-- Witness for C3: a request without a `to` parameter aborts naming `to`. -/
theorem outbound_missing_to_aborts_witness :
    handle_outbound_mail_task testSettings reqMissingTo =
      .error (.abort400 "to") :=
  outbound_missing_to_aborts testSettings reqMissingTo (by decide)

/-- Claim C4: an inbound message to the configured address whose content
length exceeds the 20 MiB ceiling yields the Too big outcome, independently of
the message content (no parsing needed) and with no task enqueued. -/
theorem incoming_too_big (st : Settings) (deps : MailDeps) (addr : String)
    (n : Nat) (m : ParsedMsg) (haddr : addr = st.INBOUND_EMAIL_ADDR)
    (hn : n > MAX_BODY_SIZE) :
    handle_incoming_mail st deps addr n m = some ("Too big", []) := by
  unfold handle_incoming_mail
  simp [haddr, hn]

/-- Witness for C4: one byte over the ceiling yields Too big, no tasks. -/
theorem incoming_too_big_witness :
    handle_incoming_mail testSettings testDeps "filter@chromestatus.com"
      (MAX_BODY_SIZE + 1) sampleMsg = some ("Too big", []) :=
  incoming_too_big testSettings testDeps "filter@chromestatus.com"
    (MAX_BODY_SIZE + 1) sampleMsg rfl (by decide)

/-- Claim C5: an inbound message to the configured address, within the size
ceiling, whose Precedence header lowercases to bulk or junk, yields the Wrong
precedence outcome and no task. -/
theorem incoming_wrong_precedence (st : Settings) (deps : MailDeps)
    (addr : String) (n : Nat) (m : ParsedMsg)
    (haddr : addr = st.INBOUND_EMAIL_ADDR) (hn : ¬ n > MAX_BODY_SIZE)
    (hp : pyLower (getHeader m "precedence" "") = "bulk" ∨
      pyLower (getHeader m "precedence" "") = "junk") :
    handle_incoming_mail st deps addr n m = some ("Wrong precedence", []) := by
  unfold handle_incoming_mail
  simp [haddr, hn, hp]

/-- Witness for C5: a message with header Precedence Bulk is rejected. -/
theorem incoming_wrong_precedence_witness :
    handle_incoming_mail testSettings testDeps "filter@chromestatus.com"
      100 bulkMsg = some ("Wrong precedence", []) :=
  incoming_wrong_precedence testSettings testDeps "filter@chromestatus.com"
    100 bulkMsg rfl (by decide) (by decide)

/-- Claim C10: a star-toggle POST with a valid integer featureId naming an
existing feature, by a signed-in user, that omits the starred field, behaves
as if starred were true and returns the Done message. -/
theorem stars_post_default_starred_true (getFeature : Int → Bool)
    (user : Option String) (req : StarsRequest) (n : Int) (e : String)
    (hfid : req.featureId = .int n) (hstar : req.starred = none)
    (hfeat : getFeature n = true) (huser : user = some e) :
    StarsAPI.do_post getFeature user req =
      .ok ({ email := e, feature_id := n, starred := true }, "Done") := by
  unfold StarsAPI.do_post
  simp [hfid, hstar, hfeat, huser]

/-- Witness for C10: feature 5 exists, user signed in, starred omitted. -/
theorem stars_post_default_starred_true_witness :
    StarsAPI.do_post (fun i => i == 5) (some "u@x.com")
      { featureId := .int 5, starred := none } =
      .ok ({ email := "u@x.com", feature_id := 5, starred := true }, "Done") :=
  stars_post_default_starred_true (fun i => i == 5) (some "u@x.com")
    { featureId := .int 5, starred := none } 5 "u@x.com" rfl rfl (by decide) rfl

/-- A successful `get_param` returns the raw parameter value. -/
theorem get_param_ok (req : MailRequest) (name : String) (required : Bool)
    (v : JVal) (h : get_param req name required = .ok v) :
    v = req.params name := by
  unfold get_param at h
  simp only [] at h
  split at h
  · simp at h
  · cases h
    rfl

/-- Inversion of a successful `handle_outbound_mail_task`: the built message
is determined by the raw parameters and the staging-redirection result. -/
theorem handle_outbound_inv (st : Settings) (req : MailRequest)
    (msg : EmailMessage) (sent : Bool)
    (h : handle_outbound_mail_task st req = .ok (msg, sent)) :
    ∃ to2 cc2,
      applyStaging st (req.params "to").asList (req.params "cc").asList =
        .ok (to2, cc2) ∧
      msg = { sender := buildSender st (req.params "from_user")
              «to» := to2
              subject := req.params "subject"
              html := req.params "html"
              reply_to := if (req.params "reply_to").falsy then none
                else some (req.params "reply_to")
              cc := cc2
              headers := if (req.params "references").falsy then []
                else [("References", req.params "references"),
                      ("In-Reply-To", req.params "references")] } ∧
      sent = st.SEND_EMAIL := by
  unfold handle_outbound_mail_task at h
  simp only [bind, Except.bind] at h
  split at h
  · simp at h
  next toV hto =>
  split at h
  · simp at h
  next ccV hcc =>
  split at h
  · simp at h
  next fuV hfu =>
  split at h
  · simp at h
  next subjV hsubj =>
  split at h
  · simp at h
  next htmlV hhtml =>
  split at h
  · simp at h
  next refV href =>
  split at h
  · simp at h
  next rtV hrt =>
  cases get_param_ok req "to" true toV hto
  cases get_param_ok req "cc" false ccV hcc
  cases get_param_ok req "from_user" false fuV hfu
  cases get_param_ok req "subject" true subjV hsubj
  cases get_param_ok req "html" true htmlV hhtml
  cases get_param_ok req "references" false refV href
  cases get_param_ok req "reply_to" false rtV hrt
  split at h
  · simp at h
  next to2 cc2 hstag =>
  split at h
  · simp at h
  rw [Except.ok.injEq, Prod.mk.injEq] at h
  exact ⟨to2, cc2, hstag, h.1.symm, h.2.symm⟩

/-- Inversion of a successful `applyStaging` when staging redirection is
configured: recipients are left alone exactly on the exempt list, otherwise
every address is rewritten. -/
theorem applyStaging_inv (st : Settings) (to0 cc0 to2 cc2 : List String)
    (tmpl : Template) (hcfg : st.SEND_ALL_EMAIL_TO = some tmpl)
    (h : applyStaging st to0 cc0 = .ok (to2, cc2)) :
    (to0 = st.REVIEW_COMMENT_MAILING_LIST → to2 = to0 ∧ cc2 = cc0) ∧
    (to0 ≠ st.REVIEW_COMMENT_MAILING_LIST →
      to0.mapM (format_staging_email st) = some to2 ∧
      cc0.mapM (fun addr => (splitEmail addr).map fun p =>
        renderTemplate st.CC_ALL_EMAIL_TO p.1 p.2) = some cc2) := by
  unfold applyStaging at h
  split at h
  next heq =>
    rw [hcfg] at heq
    cases heq
  next t heq =>
    by_cases hex : to0 = st.REVIEW_COMMENT_MAILING_LIST
    · rw [if_pos hex] at h
      cases h
      exact ⟨fun _ => ⟨rfl, rfl⟩, fun hne => absurd hex hne⟩
    · rw [if_neg hex] at h
      refine ⟨fun hx => absurd hx hex, fun _ => ?_⟩
      cases hto1 : to0.mapM (fun addr => format_staging_email st addr) with
      | none =>
        rw [hto1] at h
        simp at h
      | some to1 =>
        rw [hto1] at h
        cases hcc1 : cc0.mapM (fun addr => (splitEmail addr).map fun p =>
            renderTemplate st.CC_ALL_EMAIL_TO p.1 p.2) with
        | none =>
          rw [hcc1] at h
          simp at h
        | some cc1 =>
          rw [hcc1] at h
          rw [Except.ok.injEq, Prod.mk.injEq] at h
          obtain ⟨h1, h2⟩ := h
          subst h1
          subst h2
          exact ⟨rfl, rfl⟩

/-- Claim C2: while staging redirection is configured, an outbound task whose
normalized recipient list is the exempt mailing list keeps its to and cc
addresses unrewritten, and any other task has every to address rewritten with
the staging template and every cc address with the cc template. -/
theorem outbound_staging_redirection (st : Settings) (req : MailRequest)
    (tmpl : Template) (msg : EmailMessage) (sent : Bool)
    (hcfg : st.SEND_ALL_EMAIL_TO = some tmpl)
    (h : handle_outbound_mail_task st req = .ok (msg, sent)) :
    ((req.params "to").asList = st.REVIEW_COMMENT_MAILING_LIST →
      msg.to = (req.params "to").asList ∧
      msg.cc = (req.params "cc").asList) ∧
    ((req.params "to").asList ≠ st.REVIEW_COMMENT_MAILING_LIST →
      ((req.params "to").asList).mapM (format_staging_email st) =
        some msg.to ∧
      ((req.params "cc").asList).mapM (fun addr =>
        (splitEmail addr).map fun p =>
          renderTemplate st.CC_ALL_EMAIL_TO p.1 p.2) = some msg.cc) := by
  obtain ⟨to2, cc2, hstag, hmsg, -⟩ := handle_outbound_inv st req msg sent h
  subst hmsg
  obtain ⟨h1, h2⟩ := applyStaging_inv st _ _ to2 cc2 tmpl hcfg hstag
  exact ⟨fun hx => (h1 hx).imp id id, fun hx => h2 hx⟩

/-- Witness for C2 at a non-exempt request: both recipients and the cc are
rewritten through the staging and cc templates. -/
theorem outbound_staging_redirection_witness :
    (List.mapM (format_staging_email testSettings) ["a@b.com", "c@d.org"] =
      some builtMessage.to ∧
     List.mapM (fun addr => (splitEmail addr).map fun p =>
       renderTemplate testSettings.CC_ALL_EMAIL_TO p.1 p.2) ["e@f.net"] =
      some builtMessage.cc) :=
  (outbound_staging_redirection testSettings fullRequest stagingTemplate
    builtMessage true rfl (by rfl)).2 (by decide)

/-- Claim C9: an outbound task with a truthy references value r produces a
message carrying both the References and the In-Reply-To header set to r. -/
theorem outbound_references_headers (st : Settings) (req : MailRequest)
    (msg : EmailMessage) (sent : Bool) (r : String)
    (href : req.params "references" = .s r) (hr : r ≠ "")
    (h : handle_outbound_mail_task st req = .ok (msg, sent)) :
    msg.headers = [("References", JVal.s r), ("In-Reply-To", JVal.s r)] := by
  obtain ⟨to2, cc2, -, hmsg, -⟩ := handle_outbound_inv st req msg sent h
  subst hmsg
  simp [href, JVal.falsy, hr]

/-- Witness for C9: the request with references set carries both threading
headers on the built message. -/
theorem outbound_references_headers_witness :
    builtMessage.headers =
      [("References", JVal.s "<msg1@id>"), ("In-Reply-To", JVal.s "<msg1@id>")] :=
  outbound_references_headers testSettings fullRequest builtMessage true
    "<msg1@id>" rfl (by decide) (by rfl)

mutual

/-- Relating the walk of a MIME tree to its `text/plain` leaves: when the walk
has no `text/plain` entry the tree has no such leaf, and when the first
`text/plain` entry of the walk carries a payload, that payload heads the list
of `text/plain` leaf payloads. -/
theorem walk_plainLeaves_tree (t : MimeTree) :
    (t.walk.find? (fun p => p.1 == "text/plain") = none →
      t.plainLeaves = []) ∧
    (∀ ct payload,
      t.walk.find? (fun p => p.1 == "text/plain") = some (ct, some payload) →
      t.plainLeaves.head? = some payload) := by
  cases t with
  | leaf ct0 payload0 =>
    by_cases hct : (ct0 == "text/plain") = true
    · constructor
      · intro hnone
        simp [MimeTree.walk, List.find?, hct] at hnone
      · intro ct payload hsome
        simp [MimeTree.walk, List.find?, hct] at hsome
        simp [MimeTree.plainLeaves, hct, hsome.2]
    · constructor
      · intro _
        simp [MimeTree.plainLeaves, hct]
      · intro ct payload hsome
        simp [MimeTree.walk, List.find?, hct] at hsome
  | multi ct0 children =>
    by_cases hct : (ct0 == "text/plain") = true
    · constructor
      · intro hnone
        simp [MimeTree.walk, List.find?, hct] at hnone
      · intro ct payload hsome
        simp [MimeTree.walk, List.find?, hct] at hsome
    · have ih := walk_plainLeaves_forest children
      constructor
      · intro hnone
        simp only [MimeTree.walk, List.find?, hct] at hnone
        simp only [MimeTree.plainLeaves]
        exact ih.1 hnone
      · intro ct payload hsome
        simp only [MimeTree.walk, List.find?, hct] at hsome
        simp only [MimeTree.plainLeaves]
        exact ih.2 ct payload hsome

/-- The forest version of `walk_plainLeaves_tree`. -/
theorem walk_plainLeaves_forest (ts : List MimeTree) :
    ((walkForest ts).find? (fun p => p.1 == "text/plain") = none →
      plainLeavesForest ts = []) ∧
    (∀ ct payload,
      (walkForest ts).find? (fun p => p.1 == "text/plain") =
        some (ct, some payload) →
      (plainLeavesForest ts).head? = some payload) := by
  cases ts with
  | nil =>
    constructor
    · intro _
      rfl
    · intro ct payload hsome
      simp [walkForest, List.find?] at hsome
  | cons t rest =>
    have iht := walk_plainLeaves_tree t
    have ihr := walk_plainLeaves_forest rest
    rw [show walkForest (t :: rest) = t.walk ++ walkForest rest from rfl]
    rw [show plainLeavesForest (t :: rest) =
      t.plainLeaves ++ plainLeavesForest rest from rfl]
    rw [List.find?_append]
    cases hft : t.walk.find? (fun p => p.1 == "text/plain") with
    | none =>
      rw [iht.1 hft, List.nil_append]
      constructor
      · intro hnone
        exact ihr.1 (by simpa using hnone)
      · intro ct payload hsome
        exact ihr.2 ct payload (by simpa using hsome)
    | some q =>
      constructor
      · intro hnone
        simp [Option.or] at hnone
      · intro ct payload hsome
        simp only [Option.or] at hsome
        have := iht.2 ct payload (by
          rw [hft]
          exact congrArg some (Option.some.injEq .. |>.mp hsome))
        cases hl : t.plainLeaves with
        | nil =>
          rw [hl] at this
          simp at this
        | cons a la =>
          rw [hl] at this
          simp at this
          simp [hl, this]

end

/-- The body the extraction loop produces is the payload of the first
`text/plain` leaf of the message in document order, or the empty string when
there is no such leaf. -/
theorem extractBody_eq_plainLeaves (m : ParsedMsg) (b : String)
    (hb : extractBody m = some b) :
    b = (MimeTree.plainLeaves m.tree).headD "" := by
  unfold extractBody at hb
  cases hf : m.tree.walk.find? (fun p => p.1 == "text/plain") with
  | none =>
    rw [hf] at hb
    cases hb
    rw [(walk_plainLeaves_tree m.tree).1 hf]
    rfl
  | some q =>
    rw [hf] at hb
    obtain ⟨ct, pl⟩ := q
    cases pl with
    | none => simp at hb
    | some payload =>
      rw [Option.some.injEq] at hb
      have hh := (walk_plainLeaves_tree m.tree).2 ct payload hf
      rw [List.headD_eq_head?, hh, ← hb]
      rfl

/-- Inversion of a Done outcome of `handle_incoming_mail`: the originating
address heads the extracted address lists (X-Original-From first, then From),
the body extraction succeeded, and exactly one task carrying those fields was
enqueued. -/
theorem handle_incoming_done_inv (st : Settings) (deps : MailDeps)
    (addr : String) (n : Nat) (m : ParsedMsg) (ts : List InboundReplyTask)
    (h : handle_incoming_mail st deps addr n m = some ("Done", ts)) :
    ∃ a as b,
      (match _extract_addrs deps (get_all m "x-original-from") with
       | [] => _extract_addrs deps (get_all m "from")
       | xs => xs) = a :: as ∧
      extractBody m = some b ∧
      ts = [{ to_addr := deps.unquote addr
              from_addr := a
              subject := getHeader m "subject" ""
              in_reply_to := getHeader m "in-reply-to" ""
              body := b }] := by
  unfold handle_incoming_mail at h
  simp only [] at h
  split at h
  · simp at h
  split at h
  · simp at h
  split at h
  · simp at h
  split at h
  · simp at h
  next a as heq =>
  cases hb : extractBody m with
  | none =>
    rw [hb] at h
    simp at h
  | some b =>
    rw [hb] at h
    rw [Option.some.injEq, Prod.mk.injEq] at h
    exact ⟨a, as, b, heq, rfl, h.2.symm⟩

/-- Claim C6: past the precedence check, the first address parsed from the
X-Original-From headers becomes the originating address; with none there, the
first address parsed from the From headers; with neither, the outcome is
Missing From with no task. -/
theorem incoming_from_addr_selection (st : Settings) (deps : MailDeps)
    (addr : String) (n : Nat) (m : ParsedMsg)
    (haddr : addr = st.INBOUND_EMAIL_ADDR) (hn : ¬ n > MAX_BODY_SIZE)
    (hp : ¬ (pyLower (getHeader m "precedence" "") = "bulk" ∨
      pyLower (getHeader m "precedence" "") = "junk")) :
    (_extract_addrs deps (get_all m "x-original-from") = [] →
      _extract_addrs deps (get_all m "from") = [] →
      handle_incoming_mail st deps addr n m = some ("Missing From", [])) ∧
    (∀ a as, _extract_addrs deps (get_all m "x-original-from") = a :: as →
      ∀ ts, handle_incoming_mail st deps addr n m = some ("Done", ts) →
      ∃ t, ts = [t] ∧ t.from_addr = a) ∧
    (∀ a as, _extract_addrs deps (get_all m "x-original-from") = [] →
      _extract_addrs deps (get_all m "from") = a :: as →
      ∀ ts, handle_incoming_mail st deps addr n m = some ("Done", ts) →
      ∃ t, ts = [t] ∧ t.from_addr = a) := by
  subst haddr
  refine ⟨?_, ?_, ?_⟩
  · intro hx hf
    unfold handle_incoming_mail
    simp [hn, hp, hx, hf]
  · intro a as hx ts h
    obtain ⟨a2, as2, b, heq, hb, hts⟩ :=
      handle_incoming_done_inv _ deps _ n m ts h
    rw [hx] at heq
    simp only [] at heq
    rw [List.cons.injEq] at heq
    exact ⟨_, hts, heq.1.symm⟩
  · intro a as hx hf ts h
    obtain ⟨a2, as2, b, heq, hb, hts⟩ :=
      handle_incoming_done_inv _ deps _ n m ts h
    rw [hx] at heq
    simp only [] at heq
    rw [hf, List.cons.injEq] at heq
    exact ⟨_, hts, heq.1.symm⟩

/-- Witness for C6: with an address parser that finds nothing, a message whose
From headers parse to no address yields Missing From and no task. -/
theorem incoming_from_addr_selection_witness :
    handle_incoming_mail testSettings noAddrDeps "filter@chromestatus.com"
      10 sampleMsg = some ("Missing From", []) :=
  (incoming_from_addr_selection testSettings noAddrDeps
    "filter@chromestatus.com" 10 sampleMsg rfl (by decide) (by decide)).1
    rfl rfl

/-- Claim C7: every task enqueued by a Done outcome carries as body the
payload of the first `text/plain` leaf of the MIME tree in document order,
or the empty string when no such part exists. -/
theorem incoming_body_first_plain_text (st : Settings) (deps : MailDeps)
    (addr : String) (n : Nat) (m : ParsedMsg) (ts : List InboundReplyTask)
    (h : handle_incoming_mail st deps addr n m = some ("Done", ts)) :
    ts.map (fun t => t.body) = [(MimeTree.plainLeaves m.tree).headD ""] := by
  obtain ⟨a, as, b, heq, hb, hts⟩ :=
    handle_incoming_done_inv st deps addr n m ts h
  subst hts
  rw [← extractBody_eq_plainLeaves m b hb]
  rfl

/-- Witness for C7: the multipart message whose first plain-text part says
Hello produces a task whose body is Hello, despite the other parts. -/
theorem incoming_body_first_plain_text_witness :
    List.map (fun t => t.body) [helloTask] =
      [(MimeTree.plainLeaves sampleMsg.tree).headD ""] :=
  incoming_body_first_plain_text testSettings testDeps
    "filter@chromestatus.com" 10 sampleMsg [helloTask] (by rfl)

/-- Persisting a record makes it the one found under its email key. -/
theorem putPref_find (store : List UserPref) (p : UserPref) :
    (putPref store p).find? (fun q => q.email == p.email) = some p := by
  induction store with
  | nil => simp [putPref, List.find?]
  | cons q qs ih =>
    unfold putPref
    by_cases hq : (q.email == p.email) = true
    · rw [if_pos hq]
      simp [List.find?]
    · rw [if_neg hq]
      simp only [List.find?, hq]
      exact ih

/-- Looking up one email always yields exactly one record keyed by that
email: the stored bounced flag, or false for a fresh record. -/
theorem get_prefs_single (store : List UserPref) (e : String) :
    get_prefs_for_emails store [e] =
      [{ email := e,
         bounced := (((store.find? (fun p => p.email == e)).map
           (fun p => p.bounced)).getD false) }] := by
  unfold get_prefs_for_emails
  simp only [List.map]
  cases hf : store.find? (fun p => p.email == e) with
  | some p0 =>
    have hbeq := List.find?_some hf
    have he : p0.email = e := eq_of_beq hbeq
    simp only [Option.map_some, Option.getD_some]
    cases p0
    cases he
    rfl
  | none => rfl

/-- Claim C8: every completed bounce ingestion leaves the preference record of
the bounced address persisted with bounced set to true, whatever the pre-state
and whether or not the escalation-email transport fails. -/
theorem bounce_sets_bounced_pref (st : Settings) (store : List UserPref)
    (b : BounceOriginal) (transportOk : Bool) (res : BounceResult)
    (h : receive st store b transportOk = some res) :
    res.store.find? (fun q => q.email == b.to) =
      some { email := b.to, bounced := true } := by
  unfold receive at h
  simp only [] at h
  rw [get_prefs_single] at h
  simp only [] at h
  rw [Option.some.injEq] at h
  subst h
  exact putPref_find store { email := b.to, bounced := true }

/-- Witness for C8: a bounce for a stored address with a failing escalation
transport still leaves bounced true in the persisted store. -/
theorem bounce_sets_bounced_pref_witness :
    bounceRes.store.find? (fun q => q.email == "user@x.com") =
      some { email := "user@x.com", bounced := true } :=
  bounce_sets_bounced_pref testSettings
    [{ email := "user@x.com", bounced := false }] sampleBounce false
    bounceRes (by rfl)
